import Mathlib

/-!
Shallow embedding of the METAR field decoder `parse_metar` from
`src/metpy/io/metar.py`, together with the Python string and number
primitives it relies on.  Strings are Lean `String`s (lists of characters);
Python `float` values arising in the decoder are modelled exactly as
rationals (`Rat`); a Python exception that the decoder does not catch is
modelled as `Except.error`; `np.nan` "missing" markers are modelled as
`Option.none`.
-/

namespace Metar

/-! ### Python string primitives -/

/-- Python `str.strip()` on a list of characters: drop leading and trailing
whitespace. -/
def stripList (l : List Char) : List Char :=
  ((l.dropWhile Char.isWhitespace).reverse.dropWhile Char.isWhitespace).reverse

/-- Python `str.strip()`. -/
def pyStrip (s : String) : String := ⟨stripList s.data⟩

/-- Substring test on character lists: does `pat` occur contiguously in
`hay`?  This models Python's `pat in hay` for strings. -/
def containsSub (hay pat : List Char) : Bool :=
  match hay with
  | [] => pat.isEmpty
  | _ :: t => pat.isPrefixOf hay || containsSub t pat

/-- Python `pat in s` (substring containment). -/
def pyIn (pat s : String) : Bool := containsSub s.data pat.data

/-- Python `s.endswith(t)`. -/
def pyEndsWith (s t : String) : Bool := t.data.isSuffixOf s.data

/-- Python `s[:n]` for `0 ≤ n`. -/
def strTake (n : Nat) (s : String) : String := ⟨s.data.take n⟩

/-- Python `s[n:]` for `0 ≤ n`. -/
def strDropN (n : Nat) (s : String) : String := ⟨s.data.drop n⟩

/-- Python `s[a:b]` for `0 ≤ a ≤ b`. -/
def strSlice (a b : Nat) (s : String) : String := ⟨(s.data.drop a).take (b - a)⟩

/-- Python `s[:-n]` for `n ≥ 1`: everything but the last `n` characters. -/
def strDropRight (n : Nat) (s : String) : String := ⟨s.data.take (s.data.length - n)⟩

/-- Python `s[-2:]`: the last two characters (the whole string when it is
shorter). -/
def strLast2 (s : String) : String := ⟨s.data.drop (s.data.length - 2)⟩

/-- Auxiliary for whitespace splitting: accumulates the current token
(reversed) and emits tokens at whitespace boundaries. -/
def splitWSAux : List Char → List Char → List String
  | [], acc => if acc.isEmpty then [] else [⟨acc.reverse⟩]
  | c :: rest, acc =>
    if c.isWhitespace then
      if acc.isEmpty then splitWSAux rest []
      else ⟨acc.reverse⟩ :: splitWSAux rest []
    else splitWSAux rest (c :: acc)

/-- Python `s.split()` (no argument): split on whitespace runs, discarding
empty pieces. -/
def pySplit (s : String) : List String := splitWSAux s.data []

/-- Python `s.split(maxsplit=1)`: first whitespace-delimited token, and the
remainder with its leading whitespace removed. -/
def splitMax1 (s : String) : String × String :=
  (⟨(s.data.dropWhile Char.isWhitespace).takeWhile (fun c => !c.isWhitespace)⟩,
   ⟨((s.data.dropWhile Char.isWhitespace).dropWhile (fun c => !c.isWhitespace)).dropWhile
      Char.isWhitespace⟩)

/-- Python `s.split('/', maxsplit=1)`: the part before the first `/` and the
part after it. -/
def splitSlash1 (s : String) : String × String :=
  (⟨s.data.takeWhile (fun c => c != '/')⟩,
   ⟨(s.data.dropWhile (fun c => c != '/')).drop 1⟩)

/-! ### Python numeric conversions -/

/-- Value of a digit string, processed left to right. -/
def digitsValAux : List Char → Nat → Option Nat
  | [], acc => some acc
  | c :: rest, acc =>
    if c.isDigit then digitsValAux rest (10 * acc + (c.toNat - 48)) else none

/-- Value of a non-empty all-digit character list; `none` otherwise. -/
def digitsVal (l : List Char) : Option Nat :=
  if l.isEmpty then none else digitsValAux l 0

/-- Python `int(s)`: strip whitespace, optional sign, then a non-empty run
of decimal digits; `none` models `ValueError`. -/
def pyInt? (s : String) : Option Int :=
  match (pyStrip s).data with
  | '+' :: rest => (digitsVal rest).map (fun n => (n : Int))
  | '-' :: rest => (digitsVal rest).map (fun n => -(n : Int))
  | l => (digitsVal l).map (fun n => (n : Int))

/-- Unsigned part of Python `float(s)`: digits with an optional fractional
part (`"05"`, `"2.5"`, `".5"`, `"5."`); `none` on anything else. -/
def floatCore (u : List Char) : Option Rat :=
  match u.dropWhile Char.isDigit with
  | [] =>
    (digitsVal u).map (fun n => (n : Rat))
  | '.' :: fp =>
    if fp.all Char.isDigit && !((u.takeWhile Char.isDigit).isEmpty && fp.isEmpty) then
      some (((digitsValAux (u.takeWhile Char.isDigit) 0).getD 0 : Rat) +
        ((digitsValAux fp 0).getD 0 : Rat) / ((10 : Rat) ^ fp.length))
    else none
  | _ => none

/-- Python `float(s)` restricted to the decimal forms the decoder can meet:
strip whitespace, optional sign, digits with an optional fractional part.
`none` models `ValueError`. -/
def pyFloat? (s : String) : Option Rat :=
  match (pyStrip s).data with
  | '+' :: r => floatCore r
  | '-' :: r => (floatCore r).map (fun q => -q)
  | l => floatCore l

/-! ### Unit conversions

The unit registry (`metpy.units`, a pint registry) is an external
collaborator; only the two fixed conversions the decoder performs are
needed.  Pint defines the mile as 5280 international feet
(1 mile = 1609.344 m) and the conventional inch of mercury as
25.4 mm × 13.5951 g/cm³ × 9.80665 m/s² (1 inHg = 3386.388640341 Pa =
33.86388640341 hPa); both factors are exact rationals. -/

/-- `units.Quantity(q, 'miles').m_as('meter')`. -/
def milesToMeters (q : Rat) : Rat := q * (1609344 / 1000 : Rat)

/-- `units.Quantity(n, 'hPa').to('inHg').m`. -/
def hPaToInHg (n : Int) : Rat := (n : Rat) * 100000000000 / 3386388640341

/-! ### Tokenizer output (raw group spans)

The Canopy-generated tokenizer is not part of the sources under
verification; the decoder consumes its output tree, whose relevant nodes
are plain text spans (plus the two labelled sub-spans of the wind and
temperature/dewpoint groups).  A node that matched nothing has an empty
span. -/

/-- The wind group span with its direction and speed sub-spans
(`tree.wind.text`, `tree.wind.wind_dir.text`, `tree.wind.wind_spd.text`). -/
structure WindNode where
  text : String
  wind_dir : String
  wind_spd : String
deriving DecidableEq

/-- The temperature/dewpoint group span with its two sub-spans
(`tree.temp_dewp.text`, `tree.temp_dewp.temp.text`,
`tree.temp_dewp.dewp.text`). -/
structure TempDewpNode where
  text : String
  temp : String
  dewp : String
deriving DecidableEq

/-- The tokenizer output consumed by `parse_metar`: the raw span of each
named group. -/
structure Tree where
  siteid : String
  datetime : String
  wind : WindNode
  vis : String
  curwx : String
  skyc : String
  temp_dewp : TempDewpNode
  altim : String
deriving DecidableEq

/-! ### The observation record -/

/-- The `Metar` named tuple returned by `parse_metar`.  `np.nan` markers
are `none`; Python ints/floats that carry data are `Int`/`Rat`. -/
structure Obs where
  station_id : String
  latitude : Option Rat
  longitude : Option Rat
  elevation : Option Rat
  date_time : Option (Int × Int × Int × Int × Int)
  wind_direction : Option Int
  wind_speed : Option Rat
  visibility : Option Rat
  current_wx1 : Option String
  current_wx2 : Option String
  current_wx3 : Option String
  skyc1 : Option String
  skylev1 : Option Rat
  skyc2 : Option String
  skylev2 : Option Rat
  skyc3 : Option String
  skylev3 : Option Rat
  skyc4 : Option String
  skylev4 : Option Rat
  cloudcover : Nat
  temperature : Option Rat
  dewpoint : Option Rat
  altimeter : Option Rat
  current_wx1_symbol : Int
  current_wx2_symbol : Int
  current_wx3_symbol : Int
deriving DecidableEq

/-! ### Field decoders (one per block of `parse_metar`) -/

/-- Leap year test used by Python's `datetime` constructor. -/
def isLeap (y : Int) : Bool := (y % 4 == 0 && y % 100 != 0) || (y % 400 == 0)

/-- Days in a month, as validated by Python's `datetime` constructor. -/
def daysInMonth (y m : Int) : Int :=
  if m == 2 then (if isLeap y then 29 else 28)
  else if m == 4 || m == 6 || m == 9 || m == 11 then 30
  else 31

/-- Argument validation performed by `datetime(year, month, day, hour,
minute)`; out-of-range arguments raise `ValueError`. -/
def validDatetime (y m d h mi : Int) : Bool :=
  1 ≤ y && y ≤ 9999 && 1 ≤ m && m ≤ 12 && 1 ≤ d && d ≤ daysInMonth y m &&
    0 ≤ h && h ≤ 23 && 0 ≤ mi && mi ≤ 59

/-- The date/time block: `tree.datetime.text[:-1].strip()`, fixed offsets
`[0:2]`, `[2:4]`, `[4:7]`, then `datetime(year, month, day, hour, minute)`;
`except (AttributeError, ValueError)` maps any failure to missing. -/
def decodeDatetime (s : String) (year month : Int) :
    Option (Int × Int × Int × Int × Int) :=
  match pyInt? (strSlice 0 2 (pyStrip (strDropRight 1 s))),
      pyInt? (strSlice 2 4 (pyStrip (strDropRight 1 s))),
      pyInt? (strSlice 4 7 (pyStrip (strDropRight 1 s))) with
  | some day, some hour, some minute =>
    if validDatetime year month day hour minute then
      some (year, month, day, hour, minute)
    else none
  | _, _, _ => none

/-- The wind block: filler/`KT`/empty gives both missing; `VRB`/`VAR` gives
a missing direction with a float speed; otherwise both integers; any
`ValueError` gives both missing. -/
def decodeWind (w : WindNode) : Option Int × Option Rat :=
  if pyIn "/" w.text || w.text == "KT" || w.text == "" then
    (none, none)
  else if w.wind_dir == "VRB" || w.wind_dir == "VAR" then
    match pyFloat? w.wind_spd with
    | some v => (none, some v)
    | none => (none, none)
  else
    match pyInt? w.wind_dir, pyInt? w.wind_spd with
    | some d, some s => (some d, some ((s : Int) : Rat))
    | _, _ => (none, none)

/-- The fraction-or-integer tail of the statute-miles visibility case:
`int(num) / int(denom)` when a `/` is present, else `int(vis_str)`.
Conversion failures (`ValueError`, `ZeroDivisionError`) are NOT caught in
the source. -/
def visFracPart (vs : String) : Except String Rat :=
  if pyIn "/" vs then
    match pyInt? (splitSlash1 vs).1, pyInt? (splitSlash1 vs).2 with
    | some n, some d =>
      if d == 0 then .error "ZeroDivisionError" else .ok ((n : Rat) / (d : Rat))
    | _, _ => .error "ValueError"
  else
    match pyInt? vs with
    | some n => .ok ((n : Rat))
    | none => .error "ValueError"

/-- The visibility block.  Errors raised here are NOT caught by
`parse_metar`. -/
def decodeVis (s : String) : Except String (Option Rat) :=
  if pyEndsWith s "SM" then
    match
      (if pyIn " " (pyStrip (strDropRight 2 s)) then
        match pyInt? (splitMax1 (pyStrip (strDropRight 2 s))).1 with
        | some w => .ok ((w : Rat), (splitMax1 (pyStrip (strDropRight 2 s))).2)
        | none => .error "ValueError"
      else .ok ((0 : Rat), pyStrip (strDropRight 2 s)) :
        Except String (Rat × String)) with
    | .error e => .error e
    | .ok wv =>
      match visFracPart wv.2 with
      | .error e => .error e
      | .ok f => .ok (some (milesToMeters (wv.1 + f)))
  else if pyIn "CAVOK" s then .ok (some 10000)
  else if s == "" || pyStrip s == "////" then .ok none
  else
    match pyInt? (strTake 4 (pyStrip s)) with
    | some n => .ok (some ((n : Int) : Rat))
    | none => .error "ValueError"

/-- The numeric symbol for one present-weather slot: 0 when the slot is
missing or the phenomenon code is not in `wx_code_map` (`KeyError`). -/
def wxSym (wxm : String → Option Int) (w : Option String) : Int :=
  match w with
  | none => 0
  | some c =>
    match wxm c with
    | some v => v
    | none => 0

/-- The present-weather fields of the observation. -/
structure WxFields where
  wx1 : Option String
  wx2 : Option String
  wx3 : Option String
  sym1 : Int
  sym2 : Int
  sym3 : Int
deriving DecidableEq

/-- The present-weather block: empty or `//` group makes all three codes
missing and all three symbols 0; otherwise up to three space-separated
codes, each symbol looked up in the phenomenon table with misses mapped
to 0. -/
def decodeCurwx (s : String) (wxm : String → Option Int) : WxFields :=
  if s == "" || pyStrip s == "//" then
    ⟨none, none, none, 0, 0, 0⟩
  else
    ⟨(pySplit (pyStrip s)).get? 0, (pySplit (pyStrip s)).get? 1,
     (pySplit (pyStrip s)).get? 2,
     wxSym wxm ((pySplit (pyStrip s)).get? 0),
     wxSym wxm ((pySplit (pyStrip s)).get? 1),
     wxSym wxm ((pySplit (pyStrip s)).get? 2)⟩

/-- The sky-cover layer fields of the observation. -/
structure SkyFields where
  skyc1 : Option String
  skylev1 : Option Rat
  skyc2 : Option String
  skylev2 : Option Rat
  skyc3 : Option String
  skylev3 : Option Rat
  skyc4 : Option String
  skylev4 : Option Rat
deriving DecidableEq

/-- One layer's coverage token: characters `[0:3]`, missing when absent or
containing filler. -/
def skyCoverTok (toks : List String) (i : Nat) : Option String :=
  match toks.get? i with
  | none => none
  | some t => if pyIn "/" (strTake 3 t) then none else some (strTake 3 t)

/-- One layer's level: characters `[3:]` times 100, missing when absent,
filler, or unparseable (`ValueError` is caught here). -/
def skyLevTok (toks : List String) (i : Nat) : Option Rat :=
  match toks.get? i with
  | none => none
  | some t =>
    if pyIn "/" (strDropN 3 t) then none
    else
      match pyFloat? (strDropN 3 t) with
      | some v => some (v * 100)
      | none => none

/-- The sky-cover block.  The vertical-visibility special case
(`text[1:3] == 'VV'`) computes `100 * int(...)` with no exception handler,
so a `ValueError` there is NOT caught. -/
def decodeSkyc (s : String) : Except String SkyFields :=
  if strSlice 1 3 s == "VV" then
    match
      (if strDropN 2 (pyStrip s) == "///" then .ok none
      else
        match pyInt? (strDropN 2 (pyStrip s)) with
        | some n => .ok (some ((100 * n : Int) : Rat))
        | none => .error "ValueError" : Except String (Option Rat)) with
    | .error e => .error e
    | .ok lev => .ok ⟨some "VV", lev, none, none, none, none, none, none⟩
  else
    .ok ⟨skyCoverTok (pySplit (pyStrip s)) 0, skyLevTok (pySplit (pyStrip s)) 0,
      skyCoverTok (pySplit (pyStrip s)) 1, skyLevTok (pySplit (pyStrip s)) 1,
      skyCoverTok (pySplit (pyStrip s)) 2, skyLevTok (pySplit (pyStrip s)) 2,
      skyCoverTok (pySplit (pyStrip s)) 3, skyLevTok (pySplit (pyStrip s)) 3⟩

/-- The aggregate cloud-coverage value in oktas, scanning the raw sky-cover
text (and the visibility text for `CAVOK`). -/
def cloudCoverOf (skyc vis : String) : Nat :=
  if pyIn "OVC" skyc || pyIn "VV" skyc then 8
  else if pyIn "BKN" skyc then 6
  else if pyIn "SCT" skyc then 4
  else if pyIn "FEW" skyc then 2
  else if pyIn "SKC" skyc || pyIn "NCD" skyc || pyIn "NSC" skyc ||
      pyIn "CLR" skyc || pyIn "CAVOK" vis then 0
  else 10

/-- One temperature/dewpoint sub-token: the float of its last two
characters, negated when `M` occurs anywhere in the sub-token;
`ValueError` is caught and gives missing. -/
def decodeTempTok (t : String) : Option Rat :=
  if pyIn "M" t then
    match pyFloat? (strLast2 t) with
    | some v => some (-v)
    | none => none
  else
    match pyFloat? (strLast2 t) with
    | some v => some v
    | none => none

/-- The temperature/dewpoint block: empty group or the literal `' MM/MM'`
makes both missing; otherwise the two sub-tokens are decoded
independently. -/
def decodeTempDewp (n : TempDewpNode) : Option Rat × Option Rat :=
  if n.text == "" || n.text == " MM/MM" then (none, none)
  else (decodeTempTok n.temp, decodeTempTok n.dewp)

/-- The altimeter block: empty group is missing; otherwise the characters
at positions 1–5 of the stripped text, scaled by the 1100 threshold.
Conversion failures here are NOT caught. -/
def decodeAltim (s : String) : Except String (Option Rat) :=
  if s == "" then .ok none
  else
    match pyFloat? (strSlice 1 5 (pyStrip s)) with
    | none => .error "ValueError"
    | some f =>
      if 1100 < f then .ok (some (f / 100))
      else
        match pyInt? (strSlice 1 5 (pyStrip s)) with
        | some n => .ok (some (hPaToInHg n))
        | none => .error "ValueError"

/-- `parse_metar(metar_text, year, month, station_metadata)` after
tokenization: decodes every field of the observation from the raw group
spans.  The station table and the weather-code table are the external
read-only mappings; a `none` result models a lookup `KeyError` (caught).
The three field decoders that the source leaves unprotected surface their
exception as `Except.error`, in the order Python raises them. -/
def parseMetar (t : Tree) (year month : Int)
    (stn : String → Option (Rat × Rat × Rat)) (wxm : String → Option Int) :
    Except String Obs :=
  match decodeVis t.vis with
  | .error e => .error e
  | .ok vis =>
    match decodeSkyc t.skyc with
    | .error e => .error e
    | .ok sk =>
      match decodeAltim t.altim with
      | .error e => .error e
      | .ok alt =>
        .ok ⟨pyStrip t.siteid,
          (stn (pyStrip t.siteid)).map (fun p => p.1),
          (stn (pyStrip t.siteid)).map (fun p => p.2.1),
          (stn (pyStrip t.siteid)).map (fun p => p.2.2),
          decodeDatetime t.datetime year month,
          (decodeWind t.wind).1,
          (decodeWind t.wind).2,
          vis,
          (decodeCurwx t.curwx wxm).wx1,
          (decodeCurwx t.curwx wxm).wx2,
          (decodeCurwx t.curwx wxm).wx3,
          sk.skyc1, sk.skylev1, sk.skyc2, sk.skylev2,
          sk.skyc3, sk.skylev3, sk.skyc4, sk.skylev4,
          cloudCoverOf t.skyc t.vis,
          (decodeTempDewp t.temp_dewp).1,
          (decodeTempDewp t.temp_dewp).2,
          alt,
          (decodeCurwx t.curwx wxm).sym1,
          (decodeCurwx t.curwx wxm).sym2,
          (decodeCurwx t.curwx wxm).sym3⟩

/-- `Except` success test. -/
def exceptIsOk {α : Type} : Except String α → Bool
  | .ok _ => true
  | .error _ => false

/-! ### Supporting lemmas about the Python primitives -/

theorem containsSub_single (c : Char) (l : List Char) :
    containsSub l [c] = l.contains c := by
  induction l with
  | nil => rfl
  | cons x t ih =>
    simp only [containsSub, List.isPrefixOf, List.contains_cons, ih]
    cases h : c == x <;> simp [List.isPrefixOf, BEq.comm, h]

theorem pyIn_slash_iff (s : String) : pyIn "/" s = true ↔ '/' ∈ s.data := by
  have h : pyIn "/" s = s.data.contains '/' := containsSub_single '/' s.data
  rw [h]
  simp [List.contains, List.elem_iff]

theorem mem_dropWhile {p : Char → Bool} {c : Char} {l : List Char}
    (hm : c ∈ l) (hp : p c = false) : c ∈ l.dropWhile p := by
  induction l with
  | nil => cases hm
  | cons x t ih =>
    rw [List.dropWhile_cons]
    rcases List.mem_cons.mp hm with rfl | ht
    · simp [hp]
    · by_cases hx : p x = true
      · simp [hx, ih ht]
      · simp only [Bool.not_eq_true] at hx
        simp [hx, List.mem_cons, ht]

theorem mem_stripList {c : Char} {l : List Char}
    (hm : c ∈ l) (hw : c.isWhitespace = false) : c ∈ stripList l := by
  unfold stripList
  rw [List.mem_reverse]
  exact mem_dropWhile (List.mem_reverse.mpr (mem_dropWhile hm hw)) hw

theorem digitsValAux_none {c : Char} {l : List Char}
    (hm : c ∈ l) (hd : c.isDigit = false) : ∀ acc, digitsValAux l acc = none := by
  induction l with
  | nil => cases hm
  | cons x t ih =>
    intro acc
    rcases List.mem_cons.mp hm with rfl | ht
    · simp [digitsValAux, hd]
    · by_cases hx : x.isDigit = true
      · simp [digitsValAux, hx, ih ht]
      · simp only [Bool.not_eq_true] at hx
        simp [digitsValAux, hx]

theorem digitsVal_none {c : Char} {l : List Char}
    (hm : c ∈ l) (hd : c.isDigit = false) : digitsVal l = none := by
  unfold digitsVal
  rcases l with _ | ⟨x, t⟩
  · cases hm
  · simp [digitsValAux_none hm hd]

/-- A string containing the filler `/` never converts with `int()`. -/
theorem pyInt?_slash {s : String} (h : pyIn "/" s = true) : pyInt? s = none := by
  have hmem : '/' ∈ (pyStrip s).data :=
    mem_stripList ((pyIn_slash_iff s).mp h) (by decide)
  unfold pyInt?
  split
  · next heq =>
    rw [heq] at hmem
    rcases List.mem_cons.mp hmem with hc | ht
    · cases hc
    · rw [digitsVal_none ht (by decide)]; rfl
  · next heq =>
    rw [heq] at hmem
    rcases List.mem_cons.mp hmem with hc | ht
    · cases hc
    · rw [digitsVal_none ht (by decide)]; rfl
  · rw [digitsVal_none hmem (by decide)]; rfl

theorem all_false_of_mem {p : Char → Bool} {c : Char} {l : List Char}
    (hm : c ∈ l) (hp : p c = false) : l.all p = false := by
  cases hall : l.all p
  · rfl
  · have hc := List.all_eq_true.mp hall c hm
    rw [hp] at hc
    cases hc

/-- A character list containing the filler `/` never converts with the
unsigned float parser. -/
theorem floatCore_slash {u : List Char} (h : '/' ∈ u) : floatCore u = none := by
  have hmem : '/' ∈ u.dropWhile Char.isDigit := mem_dropWhile h (by decide)
  unfold floatCore
  split
  · next heq => rw [heq] at hmem; cases hmem
  · next fp heq =>
    rw [heq] at hmem
    rcases List.mem_cons.mp hmem with hc | ht
    · cases hc
    · rw [all_false_of_mem ht (by decide)]; rfl
  · rfl

/-- A string containing the filler `/` never converts with `float()`. -/
theorem pyFloat?_slash {s : String} (h : pyIn "/" s = true) : pyFloat? s = none := by
  have hmem : '/' ∈ (pyStrip s).data :=
    mem_stripList ((pyIn_slash_iff s).mp h) (by decide)
  unfold pyFloat?
  split
  · next heq =>
    rw [heq] at hmem
    rcases List.mem_cons.mp hmem with hc | ht
    · cases hc
    · rw [floatCore_slash ht]
  · next heq =>
    rw [heq] at hmem
    rcases List.mem_cons.mp hmem with hc | ht
    · cases hc
    · rw [floatCore_slash ht]; rfl
  · exact floatCore_slash hmem

/-- A string containing filler is never `==` to a slash-free literal. -/
theorem beq_false_of_slash {s t : String} (hs : pyIn "/" s = true)
    (ht : pyIn "/" t = false) : (s == t) = false := by
  cases hb : s == t
  · rfl
  · have he : s = t := eq_of_beq hb
    rw [he, ht] at hs
    cases hs

/-! ### Claim C3 -/

/-- The wind rule exactly as the specification words it: both sub-tokens
contain filler, or the group is literally `KT` or empty → both missing;
`VRB`/`VAR` direction → direction missing and speed parsed as a float;
otherwise both parsed as integers; any numeric-conversion error on the
group → both missing. -/
def specWind (w : WindNode) : Option Int × Option Rat :=
  if (pyIn "/" w.wind_dir && pyIn "/" w.wind_spd) || w.text == "KT" || w.text == "" then
    (none, none)
  else if w.wind_dir == "VRB" || w.wind_dir == "VAR" then
    match pyFloat? w.wind_spd with
    | some v => (none, some v)
    | none => (none, none)
  else
    match pyInt? w.wind_dir, pyInt? w.wind_spd with
    | some d, some s => (some d, some ((s : Int) : Rat))
    | _, _ => (none, none)

/-- Claim C3: for every wind group span whose filler characters all lie in
the direction or speed sub-spans, the decoded wind follows the claimed case
split (filler/`KT`/empty → both missing; `VRB`/`VAR` → direction missing
with float speed; otherwise both integers; conversion errors → both
missing); in particular `VRB05KT` gives (missing, 5), `/////KT` gives
(missing, missing) and `28015KT` gives (280, 15). -/
theorem C3_wind_cases :
    (∀ w : WindNode,
      pyIn "/" w.text = (pyIn "/" w.wind_dir || pyIn "/" w.wind_spd) →
      decodeWind w = specWind w)
    ∧ decodeWind ⟨"VRB05KT", "VRB", "05"⟩ = (none, some 5)
    ∧ decodeWind ⟨"/////KT", "///", "//"⟩ = (none, none)
    ∧ decodeWind ⟨"28015KT", "280", "15"⟩ = (some 280, some 15) := by
  refine ⟨?_, by decide, by decide, by decide⟩
  intro w h
  unfold decodeWind specWind
  by_cases hd : pyIn "/" w.wind_dir = true
  · by_cases hs : pyIn "/" w.wind_spd = true
    · have htext : pyIn "/" w.text = true := by rw [h, hd, hs]; rfl
      simp [htext, hd, hs]
    · rw [Bool.not_eq_true] at hs
      have htext : pyIn "/" w.text = true := by rw [h, hd, hs]; rfl
      have hKT : (w.text == "KT") = false := beq_false_of_slash htext (by decide)
      have hE : (w.text == "") = false := beq_false_of_slash htext (by decide)
      have hVRB : (w.wind_dir == "VRB") = false := beq_false_of_slash hd (by decide)
      have hVAR : (w.wind_dir == "VAR") = false := beq_false_of_slash hd (by decide)
      have hint := pyInt?_slash hd
      cases hspd : pyInt? w.wind_spd <;>
        simp [htext, hd, hs, hKT, hE, hVRB, hVAR, hint, hspd]
  · rw [Bool.not_eq_true] at hd
    by_cases hs : pyIn "/" w.wind_spd = true
    · have htext : pyIn "/" w.text = true := by rw [h, hd, hs]; rfl
      have hKT : (w.text == "KT") = false := beq_false_of_slash htext (by decide)
      have hE : (w.text == "") = false := beq_false_of_slash htext (by decide)
      have hfl := pyFloat?_slash hs
      have hint := pyInt?_slash hs
      by_cases hvrb : (w.wind_dir == "VRB" || w.wind_dir == "VAR") = true
      · simp [htext, hd, hs, hKT, hE, hvrb, hfl]
      · rw [Bool.not_eq_true] at hvrb
        cases hdir : pyInt? w.wind_dir <;>
          simp [htext, hd, hs, hKT, hE, hvrb, hfl, hint, hdir]
    · rw [Bool.not_eq_true] at hs
      have htext : pyIn "/" w.text = false := by rw [h, hd, hs]; rfl
      simp [htext, hd, hs]

instance {ε α : Type} [DecidableEq ε] [DecidableEq α] : DecidableEq (Except ε α)
  | .error e, .error f =>
    if h : e = f then isTrue (by rw [h]) else isFalse (by intro hc; cases hc; exact h rfl)
  | .error _, .ok _ => isFalse (fun hc => Except.noConfusion hc)
  | .ok _, .error _ => isFalse (fun hc => Except.noConfusion hc)
  | .ok x, .ok y =>
    if h : x = y then isTrue (by rw [h]) else isFalse (by intro hc; cases hc; exact h rfl)

/-- A fully well-formed demonstration report tree, corresponding to
`KDEN 012345Z 28015KT 9999 RA BR FEW040 OVC100 10/M05 A2992`. -/
def t0 : Tree :=
  ⟨"KDEN", " 012345Z", ⟨"28015KT", "280", "15"⟩, "9999", " RA BR",
   " FEW040 OVC100", ⟨" 10/M05", "10", "M05"⟩, " A2992"⟩

/-- The observation decoded from `t0` with empty lookup tables, year 2024
and month 5. -/
def obs0 : Obs :=
  ⟨"KDEN", none, none, none, some (2024, 5, 1, 23, 45), some 280, some ((15 : Int) : Rat),
   some ((9999 : Int) : Rat), some "RA", some "BR", none, some "FEW", some ((40 : Rat) * 100),
   some "OVC", some ((100 : Rat) * 100), none, none, none, none, 8, some (10 : Rat),
   some (-(5 : Rat)), some ((2992 : Rat) / 100), 0, 0, 0⟩

/-- `t0` with its altimeter group replaced by the filler form `Q////`. -/
def tBad : Tree :=
  ⟨"KDEN", " 012345Z", ⟨"28015KT", "280", "15"⟩, "9999", " RA BR",
   " FEW040 OVC100", ⟨" 10/M05", "10", "M05"⟩, " Q////"⟩

/-- An empty station-metadata table. -/
def stnNone : String → Option (Rat × Rat × Rat) := fun _ => none

/-- An empty phenomenon-code table. -/
def wxNone : String → Option Int := fun _ => none

/-! ### Claim C1 -/

/-- Claim C1 counterexample: a report whose altimeter group is the filler
form `Q////`, every other group well-formed, makes the decoder raise
`ValueError` to the caller instead of producing an observation — so not
every field-level numeric error is absorbed as missing. -/
theorem C1_counterexample :
    parseMetar tBad 2024 5 stnNone wxNone = .error "ValueError" := rfl

/-- Claim C1 (amended): decoding succeeds exactly when the visibility,
sky-cover, and altimeter groups decode without raising; errors in every
other field (station lookup, date/time, wind, current weather, the
sky-cover layers, temperature/dewpoint) are absorbed into missing values,
those decoders being total. -/
theorem C1_error_containment :
    ∀ (t : Tree) (y m : Int) (stn : String → Option (Rat × Rat × Rat))
      (wxm : String → Option Int),
      exceptIsOk (parseMetar t y m stn wxm) = true ↔
        (exceptIsOk (decodeVis t.vis) = true ∧
         exceptIsOk (decodeSkyc t.skyc) = true ∧
         exceptIsOk (decodeAltim t.altim) = true) := by
  intro t y m stn wxm
  unfold parseMetar
  cases decodeVis t.vis <;> cases decodeSkyc t.skyc <;> cases decodeAltim t.altim <;>
    simp [exceptIsOk]

/-! ### Claim C2 -/

/-- Claim C2 counterexample: the statute-mile case decodes `1 1/4SM` to
1.25 miles = 2011.68 m exactly, which is more than 0.5 m below the claimed
"about 2012.6 m". -/
theorem C2_counterexample :
    decodeVis "1 1/4SM" = .ok (some (milesToMeters (1 + 1 / 4))) ∧
    milesToMeters (1 + 1 / 4) = 50292 / 25 ∧
    milesToMeters (1 + 1 / 4) + 1 / 2 < 20126 / 10 := by
  refine ⟨rfl, ?_, ?_⟩ <;> unfold milesToMeters <;> norm_num

/-- Claim C2 (amended): the visibility case priority as claimed, with the
statute-mile example corrected to 2011.68 m (1.25 mi × 1609.344 m/mi):
`SM` suffix → whole+fraction summed and converted miles→meters; else
`CAVOK` → exactly 10000; else empty or `////` → missing; else the integer
formed by the first 4 characters of the stripped text, in meters. -/
theorem C2_visibility_cases :
    (∀ (s : String) (w fr : String) (nw nn nd : Int),
      pyEndsWith s "SM" = true →
      pyIn " " (pyStrip (strDropRight 2 s)) = true →
      splitMax1 (pyStrip (strDropRight 2 s)) = (w, fr) →
      pyInt? w = some nw →
      pyIn "/" fr = true →
      pyInt? (splitSlash1 fr).1 = some nn →
      pyInt? (splitSlash1 fr).2 = some nd →
      (nd == 0) = false →
      decodeVis s = .ok (some (milesToMeters ((nw : Rat) + (nn : Rat) / (nd : Rat)))))
    ∧ (∀ (s : String) (nn nd : Int),
      pyEndsWith s "SM" = true →
      pyIn " " (pyStrip (strDropRight 2 s)) = false →
      pyIn "/" (pyStrip (strDropRight 2 s)) = true →
      pyInt? (splitSlash1 (pyStrip (strDropRight 2 s))).1 = some nn →
      pyInt? (splitSlash1 (pyStrip (strDropRight 2 s))).2 = some nd →
      (nd == 0) = false →
      decodeVis s = .ok (some (milesToMeters ((0 : Rat) + (nn : Rat) / (nd : Rat)))))
    ∧ (∀ (s : String) (n : Int),
      pyEndsWith s "SM" = true →
      pyIn " " (pyStrip (strDropRight 2 s)) = false →
      pyIn "/" (pyStrip (strDropRight 2 s)) = false →
      pyInt? (pyStrip (strDropRight 2 s)) = some n →
      decodeVis s = .ok (some (milesToMeters ((0 : Rat) + (n : Rat)))))
    ∧ (∀ s : String,
      pyEndsWith s "SM" = false → pyIn "CAVOK" s = true →
      decodeVis s = .ok (some 10000))
    ∧ (∀ s : String,
      pyEndsWith s "SM" = false → pyIn "CAVOK" s = false →
      (s == "" || pyStrip s == "////") = true →
      decodeVis s = .ok none)
    ∧ (∀ (s : String) (n : Int),
      pyEndsWith s "SM" = false → pyIn "CAVOK" s = false →
      (s == "" || pyStrip s == "////") = false →
      pyInt? (strTake 4 (pyStrip s)) = some n →
      decodeVis s = .ok (some ((n : Int) : Rat)))
    ∧ decodeVis "1 1/4SM" = .ok (some (milesToMeters (1 + 1 / 4)))
    ∧ milesToMeters (1 + 1 / 4) = 201168 / 100
    ∧ decodeVis "9999" = .ok (some ((9999 : Int) : Rat)) := by
  refine ⟨?_, ?_, ?_, ?_, ?_, ?_, rfl, by unfold milesToMeters; norm_num, rfl⟩
  · intro s w fr nw nn nd hsm hsp hsplit hw hfs hnum hden hnz
    simp [decodeVis, visFracPart, hsm, hsp, hsplit, hw, hfs, hnum, hden, hnz]
  · intro s nn nd hsm hsp hfs hnum hden hnz
    simp [decodeVis, visFracPart, hsm, hsp, hfs, hnum, hden, hnz]
  · intro s n hsm hsp hfs hn
    simp [decodeVis, visFracPart, hsm, hsp, hfs, hn]
  · intro s hsm hcav
    simp [decodeVis, hsm, hcav]
  · intro s hsm hcav he
    simp [decodeVis, hsm, hcav, he]
  · intro s n hsm hcav he hn
    simp [decodeVis, hsm, hcav, he, hn]

/-- Witness for C2 at the concrete span `10SM` (whole number of miles). -/
theorem C2_witness :
    decodeVis "10SM" = .ok (some (milesToMeters ((0 : Rat) + ((10 : Int) : Rat)))) :=
  C2_visibility_cases.2.2.1 "10SM" 10 (by decide) (by decide) (by decide) (by decide)

/-- Witness for C3 at the concrete wind group `28015KT`. -/
theorem C3_witness :
    decodeWind ⟨"28015KT", "280", "15"⟩ = specWind ⟨"28015KT", "280", "15"⟩ :=
  C3_wind_cases.1 ⟨"28015KT", "280", "15"⟩ (by decide)

/-! ### Claim C4 -/

/-- Claim C4: for every non-empty altimeter group, the number formed by
characters 1–5 of the stripped text selects the scale: above 1100 it is
hundredths of inHg and is divided by 100 (`A2992` → 29.92), otherwise it is
whole hectopascals converted to inHg (`Q1013` → ≈29.91, within 0.01 of
29.92); an empty group is missing. -/
theorem C4_altimeter :
    (∀ (s : String) (n : Int), s ≠ "" →
      pyFloat? (strSlice 1 5 (pyStrip s)) = some ((n : Int) : Rat) →
      pyInt? (strSlice 1 5 (pyStrip s)) = some n →
      ((1100 < n → decodeAltim s = .ok (some (((n : Int) : Rat) / 100)))
        ∧ (n ≤ 1100 → decodeAltim s = .ok (some (hPaToInHg n)))))
    ∧ decodeAltim "" = .ok none
    ∧ decodeAltim " A2992" = .ok (some ((2992 : Rat) / 100))
    ∧ decodeAltim " Q1013" = .ok (some (hPaToInHg 1013))
    ∧ hPaToInHg 1013 < 2992 / 100
    ∧ 2992 / 100 - 1 / 100 < hPaToInHg 1013 := by
  refine ⟨?_, rfl, rfl, rfl, ?_, ?_⟩
  · intro s n hne hf hi
    have hE : (s == "") = false := by
      cases hb : s == ""
      · rfl
      · exact absurd (eq_of_beq hb) hne
    constructor
    · intro hlt
      have hc : ((1100 : Rat) < (n : Rat)) := by exact_mod_cast hlt
      simp [decodeAltim, hE, hf, hi, hc]
    · intro hle
      have hc : ¬((1100 : Rat) < (n : Rat)) := by exact_mod_cast not_lt.mpr hle
      simp [decodeAltim, hE, hf, hi, hc]
  · unfold hPaToInHg; norm_num
  · unfold hPaToInHg; norm_num

/-- Witness for C4 at the concrete altimeter group `A2992`. -/
theorem C4_witness :
    decodeAltim " A2992" = .ok (some (((2992 : Int) : Rat) / 100)) :=
  (C4_altimeter.1 " A2992" 2992 (by decide) (by decide) (by decide)).1 (by decide)

/-! ### Claim C5 -/

/-- Claim C5: the aggregate cloud coverage scans the raw sky-cover text
with fixed precedence — overcast or vertical visibility 8, else broken 6,
else scattered 4, else few 2, else a clear/no-cloud code or `CAVOK` in the
visibility text 0, else 10 — and text containing both `FEW` and `OVC`
gives 8. -/
theorem C5_cloudcover :
    (∀ skyc vis : String,
      (pyIn "OVC" skyc || pyIn "VV" skyc) = true → cloudCoverOf skyc vis = 8)
    ∧ (∀ skyc vis : String, (pyIn "OVC" skyc || pyIn "VV" skyc) = false →
        pyIn "BKN" skyc = true → cloudCoverOf skyc vis = 6)
    ∧ (∀ skyc vis : String, (pyIn "OVC" skyc || pyIn "VV" skyc) = false →
        pyIn "BKN" skyc = false → pyIn "SCT" skyc = true → cloudCoverOf skyc vis = 4)
    ∧ (∀ skyc vis : String, (pyIn "OVC" skyc || pyIn "VV" skyc) = false →
        pyIn "BKN" skyc = false → pyIn "SCT" skyc = false → pyIn "FEW" skyc = true →
        cloudCoverOf skyc vis = 2)
    ∧ (∀ skyc vis : String, (pyIn "OVC" skyc || pyIn "VV" skyc) = false →
        pyIn "BKN" skyc = false → pyIn "SCT" skyc = false → pyIn "FEW" skyc = false →
        (pyIn "SKC" skyc || pyIn "NCD" skyc || pyIn "NSC" skyc || pyIn "CLR" skyc ||
          pyIn "CAVOK" vis) = true → cloudCoverOf skyc vis = 0)
    ∧ (∀ skyc vis : String, (pyIn "OVC" skyc || pyIn "VV" skyc) = false →
        pyIn "BKN" skyc = false → pyIn "SCT" skyc = false → pyIn "FEW" skyc = false →
        (pyIn "SKC" skyc || pyIn "NCD" skyc || pyIn "NSC" skyc || pyIn "CLR" skyc ||
          pyIn "CAVOK" vis) = false → cloudCoverOf skyc vis = 10)
    ∧ (∀ skyc vis : String, pyIn "FEW" skyc = true → pyIn "OVC" skyc = true →
        cloudCoverOf skyc vis = 8) := by
  refine ⟨?_, ?_, ?_, ?_, ?_, ?_, ?_⟩ <;> intro skyc vis <;> intros <;>
    simp_all [cloudCoverOf]

/-- Witness for C5: raw sky-cover text with both `FEW` and `OVC` decodes to
8 oktas. -/
theorem C5_witness : cloudCoverOf " FEW040 OVC100" "9999" = 8 :=
  C5_cloudcover.2.2.2.2.2.2 " FEW040 OVC100" "9999" (by decide) (by decide)

/-! ### Claim C6 -/

/-- Claim C6: an empty temperature/dewpoint group or the all-filler literal
makes both missing; otherwise each sub-token decodes independently to the
float of its last two characters, negated when `M` occurs anywhere in the
sub-token (`M05` → −5, `05` → 5), and a conversion error on one sub-token
loses only that one. -/
theorem C6_temp_dewp :
    (∀ n : TempDewpNode, n.text = "" ∨ n.text = " MM/MM" →
      decodeTempDewp n = (none, none))
    ∧ (∀ n : TempDewpNode, n.text ≠ "" → n.text ≠ " MM/MM" →
      decodeTempDewp n = (decodeTempTok n.temp, decodeTempTok n.dewp))
    ∧ (∀ (t : String) (v : Rat), pyFloat? (strLast2 t) = some v → pyIn "M" t = true →
      decodeTempTok t = some (-v))
    ∧ (∀ (t : String) (v : Rat), pyFloat? (strLast2 t) = some v → pyIn "M" t = false →
      decodeTempTok t = some v)
    ∧ (∀ t : String, pyFloat? (strLast2 t) = none → decodeTempTok t = none)
    ∧ decodeTempTok "M05" = some (-(5 : Rat))
    ∧ decodeTempTok "05" = some (5 : Rat) := by
  refine ⟨?_, ?_, ?_, ?_, ?_, rfl, rfl⟩
  · rintro n (he | he) <;> simp [decodeTempDewp, he]
  · intro n h1 h2
    simp [decodeTempDewp, h1, h2]
  · intro t v hv hm
    simp [decodeTempTok, hv, hm]
  · intro t v hv hm
    simp [decodeTempTok, hv, hm]
  · intro t hv
    unfold decodeTempTok
    rw [hv]
    split <;> rfl

/-- Witness for C6 at the concrete marked sub-token `M05`. -/
theorem C6_witness : decodeTempTok "M05" = some (-(5 : Rat)) :=
  C6_temp_dewp.2.2.1 "M05" 5 (by decide) (by decide)

/-! ### Inversion of a successful parse, and per-field lemmas -/

/-- A successful parse determines each observation field from the
corresponding group decoder. -/
theorem parseMetar_ok_elim {t : Tree} {y m : Int}
    {stn : String → Option (Rat × Rat × Rat)} {wxm : String → Option Int}
    {r : Obs} (h : parseMetar t y m stn wxm = .ok r) :
    r.wind_direction = (decodeWind t.wind).1 ∧
    r.wind_speed = (decodeWind t.wind).2 ∧
    r.cloudcover = cloudCoverOf t.skyc t.vis ∧
    r.current_wx1 = (decodeCurwx t.curwx wxm).wx1 ∧
    r.current_wx2 = (decodeCurwx t.curwx wxm).wx2 ∧
    r.current_wx3 = (decodeCurwx t.curwx wxm).wx3 ∧
    r.current_wx1_symbol = (decodeCurwx t.curwx wxm).sym1 ∧
    r.current_wx2_symbol = (decodeCurwx t.curwx wxm).sym2 ∧
    r.current_wx3_symbol = (decodeCurwx t.curwx wxm).sym3 := by
  unfold parseMetar at h
  split at h
  · exact Except.noConfusion h
  · split at h
    · exact Except.noConfusion h
    · split at h
      · exact Except.noConfusion h
      · injection h with h2
        subst h2
        exact ⟨rfl, rfl, rfl, rfl, rfl, rfl, rfl, rfl, rfl⟩

/-- Only the all-integer wind branch produces a direction, and it produces
a speed with it. -/
theorem decodeWind_speed_of_dir (w : WindNode) :
    (decodeWind w).1.isSome = true → (decodeWind w).2.isSome = true := by
  unfold decodeWind
  split
  · simp
  · split
    · split <;> simp
    · split <;> simp

/-- The cloud-coverage scan only produces the values 0, 2, 4, 6, 8, 10. -/
theorem cloudCoverOf_mem (skyc vis : String) :
    cloudCoverOf skyc vis = 0 ∨ cloudCoverOf skyc vis = 2 ∨ cloudCoverOf skyc vis = 4 ∨
    cloudCoverOf skyc vis = 6 ∨ cloudCoverOf skyc vis = 8 ∨ cloudCoverOf skyc vis = 10 := by
  unfold cloudCoverOf
  split
  · simp
  split
  · simp
  split
  · simp
  split
  · simp
  split
  · simp
  · simp

/-- Every symbol produced by the phenomenon lookup is non-negative when
the table only holds non-negative codes. -/
theorem wxSym_nonneg {wxm : String → Option Int}
    (hm : ∀ k v, wxm k = some v → 0 ≤ v) (w : Option String) : 0 ≤ wxSym wxm w := by
  cases w with
  | none => exact Int.le_refl 0
  | some c =>
    unfold wxSym
    cases hc : wxm c with
    | some v =>
      simp only [hc]
      exact hm c v hc
    | none => simp [hc]

/-- Lookup misses map to symbol 0. -/
theorem wxSym_miss {wxm : String → Option Int} {c : String}
    (h : wxm c = none) : wxSym wxm (some c) = 0 := by
  simp [wxSym, h]

/-- In both branches of the present-weather block each symbol equals the
lookup applied to its own code slot. -/
theorem decodeCurwx_sym_eq (s : String) (wxm : String → Option Int) :
    (decodeCurwx s wxm).sym1 = wxSym wxm ((decodeCurwx s wxm).wx1) ∧
    (decodeCurwx s wxm).sym2 = wxSym wxm ((decodeCurwx s wxm).wx2) ∧
    (decodeCurwx s wxm).sym3 = wxSym wxm ((decodeCurwx s wxm).wx3) := by
  unfold decodeCurwx
  split
  · exact ⟨rfl, rfl, rfl⟩
  · exact ⟨rfl, rfl, rfl⟩

/-! ### Claim C7 -/

/-- Claim C7: parsing is deterministic — with the report tree, year, month
and lookup tables fixed, two runs of the decoder yield the same result. -/
theorem C7_deterministic :
    ∀ (t : Tree) (y m : Int) (stn : String → Option (Rat × Rat × Rat))
      (wxm : String → Option Int) (r1 r2 : Except String Obs),
      parseMetar t y m stn wxm = r1 → parseMetar t y m stn wxm = r2 → r1 = r2 := by
  intro t y m stn wxm r1 r2 h1 h2
  rw [← h1, ← h2]

/-- Witness for C7: two runs on the concrete report tree `t0` agree. -/
theorem C7_witness : (Except.ok obs0 : Except String Obs) = Except.ok obs0 :=
  C7_deterministic t0 2024 5 stnNone wxNone (.ok obs0) (.ok obs0) rfl rfl

/-! ### Claim C8 -/

/-- Claim C8: a successfully decoded observation never carries a concrete
wind direction together with a missing wind speed. -/
theorem C8_wind_invariant :
    ∀ (t : Tree) (y m : Int) (stn : String → Option (Rat × Rat × Rat))
      (wxm : String → Option Int) (r : Obs),
      parseMetar t y m stn wxm = .ok r →
      r.wind_direction.isSome = true → r.wind_speed.isSome = true := by
  intro t y m stn wxm r h hdir
  obtain ⟨h1, h2, -⟩ := parseMetar_ok_elim h
  rw [h2]
  rw [h1] at hdir
  exact decodeWind_speed_of_dir t.wind hdir

/-- Witness for C8 at the concrete report tree `t0`. -/
theorem C8_witness : obs0.wind_speed.isSome = true :=
  C8_wind_invariant t0 2024 5 stnNone wxNone obs0 rfl (by decide)

/-! ### Claim C9 -/

/-- Claim C9: every successfully decoded observation has a cloud coverage
in {0, 2, 4, 6, 8, 10}; odd oktas never occur. -/
theorem C9_cloudcover_range :
    ∀ (t : Tree) (y m : Int) (stn : String → Option (Rat × Rat × Rat))
      (wxm : String → Option Int) (r : Obs),
      parseMetar t y m stn wxm = .ok r →
      (r.cloudcover = 0 ∨ r.cloudcover = 2 ∨ r.cloudcover = 4 ∨ r.cloudcover = 6 ∨
       r.cloudcover = 8 ∨ r.cloudcover = 10) := by
  intro t y m stn wxm r h
  obtain ⟨-, -, h3, -⟩ := parseMetar_ok_elim h
  rw [h3]
  exact cloudCoverOf_mem t.skyc t.vis

/-- Witness for C9 at the concrete report tree `t0`. -/
theorem C9_witness :
    obs0.cloudcover = 0 ∨ obs0.cloudcover = 2 ∨ obs0.cloudcover = 4 ∨
    obs0.cloudcover = 6 ∨ obs0.cloudcover = 8 ∨ obs0.cloudcover = 10 :=
  C9_cloudcover_range t0 2024 5 stnNone wxNone obs0 rfl

/-! ### Claim C10 -/

/-- Claim C10: with a phenomenon table of non-negative codes, every
successfully decoded observation has non-negative weather symbols, and a
slot's symbol is 0 whenever its code string is missing, or present but not
found in the table. -/
theorem C10_wx_symbols :
    ∀ (t : Tree) (y m : Int) (stn : String → Option (Rat × Rat × Rat))
      (wxm : String → Option Int) (r : Obs),
      (∀ k v, wxm k = some v → 0 ≤ v) →
      parseMetar t y m stn wxm = .ok r →
      ((0 ≤ r.current_wx1_symbol ∧ 0 ≤ r.current_wx2_symbol ∧ 0 ≤ r.current_wx3_symbol)
       ∧ (r.current_wx1 = none → r.current_wx1_symbol = 0)
       ∧ (r.current_wx2 = none → r.current_wx2_symbol = 0)
       ∧ (r.current_wx3 = none → r.current_wx3_symbol = 0)
       ∧ (∀ c, r.current_wx1 = some c → wxm c = none → r.current_wx1_symbol = 0)
       ∧ (∀ c, r.current_wx2 = some c → wxm c = none → r.current_wx2_symbol = 0)
       ∧ (∀ c, r.current_wx3 = some c → wxm c = none → r.current_wx3_symbol = 0)) := by
  intro t y m stn wxm r hm h
  obtain ⟨-, -, -, h4, h5, h6, h7, h8, h9⟩ := parseMetar_ok_elim h
  obtain ⟨e1, e2, e3⟩ := decodeCurwx_sym_eq t.curwx wxm
  refine ⟨⟨?_, ?_, ?_⟩, ?_, ?_, ?_, ?_, ?_, ?_⟩
  · rw [h7, e1]; exact wxSym_nonneg hm _
  · rw [h8, e2]; exact wxSym_nonneg hm _
  · rw [h9, e3]; exact wxSym_nonneg hm _
  · intro hn; rw [h7, e1, ← h4, hn]; rfl
  · intro hn; rw [h8, e2, ← h5, hn]; rfl
  · intro hn; rw [h9, e3, ← h6, hn]; rfl
  · intro c hc hmiss; rw [h7, e1, ← h4, hc]; exact wxSym_miss hmiss
  · intro c hc hmiss; rw [h8, e2, ← h5, hc]; exact wxSym_miss hmiss
  · intro c hc hmiss; rw [h9, e3, ← h6, hc]; exact wxSym_miss hmiss

/-- Witness for C10 at the concrete report tree `t0`, whose third weather
slot is empty and must carry symbol 0. -/
theorem C10_witness : obs0.current_wx3_symbol = 0 :=
  (C10_wx_symbols t0 2024 5 stnNone wxNone obs0
    (fun _ _ hv => absurd hv (by simp [wxNone])) rfl).2.2.2.1 rfl

end Metar
